import Mathlib

/-!
Verification development for the EV telemetry dashboard (`app.py`).

The embedding follows the source file `app.py` statement by statement:

* `send_low_battery_alert` models the alert dispatcher (app.py lines 48-71).
  The only effect visible to the caller is the outcome of the single
  `requests.post` + `response.raise_for_status()` interaction, modelled by an
  `HttpResult` oracle: `requests.raise_for_status` raises `HTTPError` exactly
  for status codes in 400..599, and every transport failure raises a
  `requests.RequestException`; both are caught by the function's
  `except requests.RequestException` clause, which returns `False`.
* `get_historical_data` models the windowed history query
  (app.py lines 85-93): `WHERE timestamp >= NOW() - INTERVAL '<hours> hours'
  ORDER BY timestamp ASC` over the `vehicle_data` table, i.e. a filter by
  timestamp followed by a (non-strict) sort.
* `runCycle` models one iteration of the `while True` body of
  `create_dashboard` (app.py lines 114-279), with the Python local-variable
  semantics made explicit: the locals `battery_soc` and `current_time` are
  read by the alert condition at lines 123-124 but assigned only at lines
  240-241, after the rendering section; a read of an unassigned local raises
  `UnboundLocalError`, which (like every other exception in the body) is
  caught by the `except Exception` handler at lines 275-279 (log, visible
  error, `time.sleep(15)`, rerun).
* `FREQUENCY` (app.py line 25) is `os.getenv("STREAMLIT_FREQUENCY", 10)`:
  a *string* when the environment variable is set, the *int* `10` otherwise;
  `time.sleep` accepts a number and raises `TypeError` on a string. This is
  modelled by the `PyVal` type and `time_sleep`.

Numeric telemetry fields and times are modelled as integers (times in
seconds); the claims under study only compare them, never do float
arithmetic. `timedelta(minutes=5)` is 300 seconds; `datetime.min` is the
constant `datetimeMin`.
-/

/-- One row of the `vehicle_data` table (spec section 3, TelemetrySample). -/
structure TelemetrySample where
  timestamp : Int
  latitude : Int
  longitude : Int
  altitude : Int
  direction : Int
  speed : Int
  battery_soc : Int
  battery_level : Int
  battery_voltage : Int
  battery_current : Int
  battery_temperature : Int
  battery_soh : Int
deriving DecidableEq, Repr

/-- Outcome of the single outbound HTTP POST in `send_low_battery_alert`:
either a response with a status code, or a transport-level failure
(connection error, invalid URL, timeout, ...), all of which surface as
`requests.RequestException`. -/
inductive HttpResult where
  | response (status : Nat)
  | transportError
deriving DecidableEq, Repr

/-- Model of `requests.Response.raise_for_status`: it raises `HTTPError`
(a `RequestException`) exactly when `400 <= status_code < 600`. -/
def raise_for_status_raises (status : Nat) : Bool :=
  decide (400 ≤ status ∧ status < 600)

/-- Embedding of `send_low_battery_alert` (app.py lines 48-71) as a function
of the HTTP interaction's outcome. The payload construction and logging have
no effect on the return value; a transport failure or a `raise_for_status`
exception is caught by `except requests.RequestException` and yields
`False`; otherwise the function returns `True`. The function is total: no
exception propagates to the caller. -/
def send_low_battery_alert (post : HttpResult) : Bool :=
  match post with
  | .transportError => false
  | .response status => !raise_for_status_raises status

/-- Embedding of `get_historical_data` (app.py lines 85-93): all rows of the
table with `timestamp >= now - hours * 3600`, ordered ascending by
timestamp (SQL `ORDER BY timestamp ASC`, a non-strict order). -/
def get_historical_data (table : List TelemetrySample) (now : Int)
    (hours : Int) : List TelemetrySample :=
  (table.filter (fun r => decide (now - hours * 3600 ≤ r.timestamp))).mergeSort
    (fun a b => decide (a.timestamp ≤ b.timestamp))

/-- A Python value that is either an int or a str, as needed for
`FREQUENCY = os.getenv("STREAMLIT_FREQUENCY", 10)` (app.py line 25). -/
inductive PyVal where
  | int (n : Int)
  | str (s : String)
deriving DecidableEq, Repr

/-- Model of `os.getenv("STREAMLIT_FREQUENCY", 10)`: the environment value
is a string when present, and the default `10` is an int. -/
def getenv_frequency (env : Option String) : PyVal :=
  match env with
  | some s => PyVal.str s
  | none => PyVal.int 10

/-- Model of `time.sleep (x)`: accepts a number and sleeps that many
seconds; on a string argument it raises `TypeError` (`none`). -/
def time_sleep (x : PyVal) : Option Int :=
  match x with
  | .int n => some n
  | .str _ => none

/-- The Python locals `battery_soc` and `current_time` of the
`create_dashboard` loop body: `none` models an unassigned local, whose read
raises `UnboundLocalError`. -/
structure CycleLocals where
  battery_soc : Option Int
  current_time : Option Int
deriving DecidableEq, Repr

/-- State carried across cycles: `st.session_state.last_alert_time`
(initialised to `datetime.min`, app.py lines 110-111) together with the
loop locals. -/
structure LoopState where
  last_alert_time : Int
  locals : CycleLocals
deriving DecidableEq, Repr

/-- Stand-in for `datetime.min`. -/
def datetimeMin : Int := 0

/-- The state at the start of the first cycle: `last_alert_time =
datetime.min`, no local assigned yet. -/
def initialState : LoopState :=
  { last_alert_time := datetimeMin, locals := ⟨none, none⟩ }

/-- Outcome of `get_latest_data` (app.py lines 74-82): the most recent row,
an empty frame, or a store/connection failure raised as an exception. -/
inductive FetchResult where
  | rows (latest : TelemetrySample)
  | empty
  | storeError
deriving DecidableEq, Repr

/-- The external inputs of one cycle: the latest-row query outcome, whether
the history query succeeds, whether the presentation sink raises during
chart rendering, the outcome of the alert POST if one is attempted, the
wall-clock time `datetime.now()` of this cycle, and the `FREQUENCY`
configuration value. -/
structure CycleEnv where
  latest : FetchResult
  historyOk : Bool
  sinkOk : Bool
  dispatch : HttpResult
  now : Int
  frequency : PyVal
deriving DecidableEq, Repr

/-- Everything one cycle of the loop did, besides the successor state:
how many alert dispatches were attempted (the code has a single call site,
guarded once per cycle), whether a dispatch returned `True`, whether the
metric widgets referencing the latest sample's fields were rendered,
whether the no-data `st.error` was shown (app.py line 248), how many
`st.error` calls and `logger.error` calls the `except` handler made, whether
the cycle ended through the `except` handler, and the number of seconds
actually slept before the rerun. -/
structure CycleResult where
  state : LoopState
  dispatchCount : Nat
  alertOk : Bool
  metricsRendered : Bool
  noDataError : Bool
  handlerErrors : Nat
  handlerLogged : Bool
  errored : Bool
  sleep : Int
deriving DecidableEq, Repr

/-- The `except Exception` handler (app.py lines 275-279): log once, show
one visible error, `time.sleep(15)`, `st.rerun()`. The state passed in is
whatever the cycle had already mutated before the exception. -/
def handlerResult (s : LoopState) (dc : Nat) (ok : Bool) (rendered : Bool)
    (noData : Bool) : CycleResult :=
  { state := s, dispatchCount := dc, alertOk := ok, metricsRendered := rendered,
    noDataError := noData, handlerErrors := 1, handlerLogged := true,
    errored := true, sleep := 15 }

/-- A cycle that reached `time.sleep(refresh_time)` without an exception
(app.py line 272), sleeping `n` seconds. -/
def normalResult (s : LoopState) (dc : Nat) (ok : Bool) (rendered : Bool)
    (noData : Bool) (n : Int) : CycleResult :=
  { state := s, dispatchCount := dc, alertOk := ok, metricsRendered := rendered,
    noDataError := noData, handlerErrors := 0, handlerLogged := false,
    errored := false, sleep := n }

/-- The tail of a non-empty-data cycle, from the metric columns (app.py
line 139) to the final sleep (line 272): render the three metric widgets
from the latest sample, run the history query and hand the charts to the
sink (either may raise), then execute the assignments
`battery_soc = latest_data['battery_soc'].iloc[0]` and
`current_time = datetime.now()` (lines 240-241), display the maintenance
section, and sleep `refresh_time`. -/
def renderAndSleep (env : CycleEnv) (sample : TelemetrySample) (s : LoopState)
    (dc : Nat) (ok : Bool) (refresh : PyVal) : CycleResult :=
  if !env.historyOk then
    handlerResult s dc ok true false
  else if !env.sinkOk then
    handlerResult s dc ok true false
  else
    let s2 : LoopState :=
      { s with locals := ⟨some sample.battery_soc, some env.now⟩ }
    match time_sleep refresh with
    | some n => normalResult s2 dc ok true false n
    | none => handlerResult s2 dc ok true false

/-- One iteration of the `while True` body of `create_dashboard`
(app.py lines 114-279), with Python's local-variable semantics explicit.
The alert condition at lines 123-124 reads the local `battery_soc` first
and, only when it is below 20, the local `current_time` (Python `and`
short-circuits); a read of an unassigned local raises `UnboundLocalError`,
caught by the cycle-level handler. On a satisfied condition the dispatcher
is invoked once; if it returns `True`, `st.session_state.last_alert_time`
is set to the value of the local `current_time` and `refresh_time` becomes
the int literal `30` (lines 132-135). -/
def runCycle (env : CycleEnv) (s : LoopState) : CycleResult :=
  match env.latest with
  | .storeError => handlerResult s 0 false false false
  | .empty =>
      match time_sleep env.frequency with
      | some n => normalResult s 0 false false true n
      | none => handlerResult s 0 false false true
  | .rows sample =>
      match s.locals.battery_soc with
      | none => handlerResult s 0 false false false
      | some soc =>
          if soc < 20 then
            match s.locals.current_time with
            | none => handlerResult s 0 false false false
            | some ctime =>
                if ctime - s.last_alert_time > 300 then
                  let ok := send_low_battery_alert env.dispatch
                  let s1 : LoopState :=
                    if ok then { s with last_alert_time := ctime } else s
                  let refresh : PyVal := if ok then .int 30 else env.frequency
                  renderAndSleep env sample s1 1 ok refresh
                else
                  renderAndSleep env sample s 0 false env.frequency
          else
            renderAndSleep env sample s 0 false env.frequency

/-- The state after `n` completed cycles, starting from `initialState`,
with the cycle inputs given by `envs`. -/
def reachState (envs : Nat → CycleEnv) : Nat → LoopState
  | 0 => initialState
  | n + 1 => (runCycle (envs n) (reachState envs n)).state

/-! Concrete fixtures used by counterexamples and witnesses. -/

/-- A low-battery sample (battery_soc = 15). -/
def sampleLow : TelemetrySample :=
  ⟨1000, 1, 2, 3, 4, 5, 15, 15, 400, 10, 25, 99⟩

/-- A high-battery sample (battery_soc = 95). -/
def sampleHigh : TelemetrySample :=
  ⟨1000, 1, 2, 3, 4, 5, 95, 95, 400, 10, 25, 99⟩

/-- A cycle environment whose latest row is the low-battery sample, with a
2xx alert endpoint, a working store and sink, and the default frequency. -/
def envRowsLow : CycleEnv :=
  { latest := .rows sampleLow, historyOk := true, sinkOk := true,
    dispatch := .response 200, now := 100000, frequency := .int 10 }

/-- Same environment but the latest row has battery_soc = 95. -/
def envRowsHigh : CycleEnv :=
  { latest := .rows sampleHigh, historyOk := true, sinkOk := true,
    dispatch := .response 200, now := 100000, frequency := .int 10 }

/-- Environment whose latest row is the low-battery sample, with the cycle
clock at 2000 and a 2xx alert endpoint. -/
def envNow2000 : CycleEnv :=
  { latest := .rows sampleLow, historyOk := true, sinkOk := true,
    dispatch := .response 200, now := 2000, frequency := .int 10 }

/-- Environment where the latest-row query returns an empty frame, with the
default numeric frequency. -/
def envEmpty10 : CycleEnv :=
  { latest := .empty, historyOk := true, sinkOk := true,
    dispatch := .transportError, now := 0, frequency := .int 10 }

/-- Environment where the latest-row query raises (store unavailable). -/
def envStoreErr : CycleEnv :=
  { latest := .storeError, historyOk := true, sinkOk := true,
    dispatch := .transportError, now := 0, frequency := .int 10 }

/-- Environment with empty data and an environment-configured (string)
frequency, as produced by setting STREAMLIT_FREQUENCY. -/
def envEmptyStr : CycleEnv :=
  { latest := .empty, historyOk := true, sinkOk := true,
    dispatch := .transportError, now := 0, frequency := .str "10" }

/-- A loop state in which the locals `battery_soc = 10` and
`current_time = 1000` are bound (as left over by a hypothetical earlier
cycle) and no alert has ever been sent. -/
def stBound : LoopState := { last_alert_time := 0, locals := ⟨some 10, some 1000⟩ }

/-! Helper lemmas about the cycle function. -/

/-- When the local `battery_soc` is unassigned, the cycle cannot get past
the alert condition on non-empty data and never mutates the state at all. -/
lemma runCycle_state_of_unassigned (env : CycleEnv) (s : LoopState)
    (h : s.locals.battery_soc = none) : (runCycle env s).state = s := by
  unfold runCycle
  cases env.latest with
  | storeError => rfl
  | empty =>
      cases time_sleep env.frequency with
      | none => rfl
      | some n => rfl
  | rows sample =>
      rw [h]
      rfl

/-- The loop state reachable after any number of cycles is the initial
state: the `UnboundLocalError` raised by the alert condition on every
non-empty cycle prevents the locals from ever being assigned, so no cycle
mutates the state. -/
lemma reachState_eq_initial (envs : Nat → CycleEnv) (n : Nat) :
    reachState envs n = initialState := by
  induction n with
  | zero => rfl
  | succ k ih =>
      unfold reachState
      rw [ih]
      exact runCycle_state_of_unassigned (envs k) initialState rfl

/-- C4 (counterexample): the dispatcher returns `true` on a 304 response,
which is not a 2xx acknowledgement, refuting "returns true if and only if
the endpoint acknowledged with a 2xx response". -/
theorem alert_returns_true_on_304 :
    send_low_battery_alert (HttpResult.response 304) = true ∧
    ¬(200 ≤ 304 ∧ 304 < 300) := by decide

/-- C4 (amended): `send_low_battery_alert` returns `true` exactly when a
response was received whose status code lies outside 400..599 (the range
on which `raise_for_status` raises); every transport failure and every
4xx/5xx response yields `false`, every 2xx yields `true`, and — the
function being total — no exception propagates to the caller. -/
theorem send_low_battery_alert_true_iff (r : HttpResult) :
    send_low_battery_alert r = true ↔
      ∃ st, r = HttpResult.response st ∧ ¬(400 ≤ st ∧ st < 600) := by
  cases r with
  | transportError => simp [send_low_battery_alert]
  | response st =>
      simp [send_low_battery_alert, raise_for_status_raises]
      omega

/-- Two samples sharing the timestamp 500 (rows differing elsewhere). -/
def dupA : TelemetrySample := ⟨500, 0, 0, 0, 0, 0, 50, 50, 0, 0, 0, 0⟩

/-- A second sample with the same timestamp as `dupA`. -/
def dupB : TelemetrySample := ⟨500, 1, 0, 0, 0, 0, 50, 50, 0, 0, 0, 0⟩

/-- C6 (counterexample): on a table with two rows of equal timestamp, both
inside the window, the history query's output is not strictly ascending by
timestamp — SQL `ORDER BY timestamp ASC` is a non-strict order, refuting
"the returned sequence is strictly ascending by timestamp". -/
theorem history_not_strictly_ascending_on_duplicate_timestamps :
    ¬ List.Chain' (fun a b : TelemetrySample => a.timestamp < b.timestamp)
      (get_historical_data [dupA, dupB] 500 1) := by
  have hfilter : [dupA, dupB].filter
      (fun r => decide (500 - 1 * 3600 ≤ r.timestamp)) = [dupA, dupB] := by
    decide
  have hsorted : List.Pairwise
      (fun a b : TelemetrySample => decide (a.timestamp ≤ b.timestamp) = true)
      [dupA, dupB] := by decide
  have heq : get_historical_data [dupA, dupB] 500 1 = [dupA, dupB] := by
    unfold get_historical_data
    rw [hfilter]
    exact List.mergeSort_of_sorted hsorted
  rw [heq]
  intro hc
  rcases List.chain'_cons.mp hc with ⟨hlt, -⟩
  simp only [dupA, dupB] at hlt
  omega

/-- C6 (amended): for every positive window of `hours` hours, the history
query returns exactly the rows of the table whose timestamp is at least
`now - hours * 3600` (as a permutation of that filter, so with
multiplicity), and the returned sequence is ascending (non-decreasing) by
timestamp. -/
theorem get_historical_data_window_and_sorted (table : List TelemetrySample)
    (now hours : Int) (hh : 0 < hours) :
    List.Perm (get_historical_data table now hours)
      (table.filter (fun r => decide (now - hours * 3600 ≤ r.timestamp))) ∧
    (∀ x, x ∈ get_historical_data table now hours ↔
      x ∈ table ∧ now - hours * 3600 ≤ x.timestamp) ∧
    List.Pairwise (fun a b : TelemetrySample => a.timestamp ≤ b.timestamp)
      (get_historical_data table now hours) := by
  refine ⟨List.mergeSort_perm _ _, ?_, ?_⟩
  · intro x
    unfold get_historical_data
    rw [List.mem_mergeSort, List.mem_filter]
    simp
  · have h := @List.sorted_mergeSort TelemetrySample
      (fun a b : TelemetrySample => decide (a.timestamp ≤ b.timestamp))
      (fun a b c hab hbc => by
        simp only [decide_eq_true_eq] at *
        omega)
      (fun a b => by
        simp only [Bool.or_eq_true, decide_eq_true_eq]
        omega)
      (table.filter (fun r => decide (now - hours * 3600 ≤ r.timestamp)))
    unfold get_historical_data
    exact h.imp (fun hab => by simpa using hab)

/-- C6 (witness): the amended history property instantiated on a concrete
one-row table with window 1 hour. -/
theorem get_historical_data_window_and_sorted_witness :
    List.Perm (get_historical_data [dupA] 500 1)
      ([dupA].filter (fun r => decide (500 - 1 * 3600 ≤ r.timestamp))) ∧
    (∀ x, x ∈ get_historical_data [dupA] 500 1 ↔
      x ∈ [dupA] ∧ 500 - 1 * 3600 ≤ x.timestamp) ∧
    List.Pairwise (fun a b : TelemetrySample => a.timestamp ≤ b.timestamp)
      (get_historical_data [dupA] 500 1) :=
  get_historical_data_window_and_sorted [dupA] 500 1 (by decide)

/-- If the render-and-sleep tail of a cycle ends in the `except` handler,
it slept 15 seconds, logged once and showed one visible error. -/
lemma renderAndSleep_error15 (env : CycleEnv) (sample : TelemetrySample)
    (s : LoopState) (dc : Nat) (ok : Bool) (refresh : PyVal) :
    (renderAndSleep env sample s dc ok refresh).errored = true →
    (renderAndSleep env sample s dc ok refresh).sleep = 15 ∧
    (renderAndSleep env sample s dc ok refresh).handlerLogged = true ∧
    (renderAndSleep env sample s dc ok refresh).handlerErrors = 1 := by
  unfold renderAndSleep
  cases h1 : env.historyOk <;> cases h2 : env.sinkOk <;>
    cases h3 : time_sleep refresh <;>
      simp [handlerResult, normalResult]

/-- If a cycle ends in the `except` handler, it slept 15 seconds, logged
once and showed one visible error. -/
lemma runCycle_error15 (env : CycleEnv) (s : LoopState) :
    (runCycle env s).errored = true →
    (runCycle env s).sleep = 15 ∧
    (runCycle env s).handlerLogged = true ∧
    (runCycle env s).handlerErrors = 1 := by
  unfold runCycle
  rcases s with ⟨la, ⟨bs, ct⟩⟩
  cases hl : env.latest with
  | storeError => exact fun _ => ⟨rfl, rfl, rfl⟩
  | empty =>
      cases h3 : time_sleep env.frequency <;> simp [handlerResult, normalResult]
  | rows sample =>
      cases bs with
      | none => exact fun _ => ⟨rfl, rfl, rfl⟩
      | some soc =>
          by_cases h20 : soc < 20
          · cases ct with
            | none => simp [if_pos h20, handlerResult]
            | some ctime =>
                by_cases hel : ctime - la > 300
                · simp only [if_pos h20, if_pos hel]
                  exact renderAndSleep_error15 env sample _ 1 _ _
                · simp only [if_pos h20, if_neg hel]
                  exact renderAndSleep_error15 env sample _ 0 false env.frequency
          · simp only [if_neg h20]
            exact renderAndSleep_error15 env sample _ 0 false env.frequency

/-- Sleep interval of the render-and-sleep tail after a successful alert:
`refresh_time` was set to the int literal 30, so a non-errored tail sleeps
exactly 30 seconds. -/
lemma renderAndSleep_sleep_alert (env : CycleEnv) (sample : TelemetrySample)
    (s : LoopState) :
    (renderAndSleep env sample s 1 true (PyVal.int 30)).errored = true ∨
    (renderAndSleep env sample s 1 true (PyVal.int 30)).sleep =
      (if (renderAndSleep env sample s 1 true (PyVal.int 30)).dispatchCount = 1 ∧
          (renderAndSleep env sample s 1 true (PyVal.int 30)).alertOk = true
        then 30 else 10) := by
  unfold renderAndSleep
  cases h1 : env.historyOk <;> cases h2 : env.sinkOk <;>
    simp [handlerResult, normalResult, time_sleep]

/-- Sleep interval of the render-and-sleep tail when no alert succeeded:
`refresh_time` still holds the default 10, so a non-errored tail sleeps
exactly 10 seconds. -/
lemma renderAndSleep_sleep_noalert (env : CycleEnv) (sample : TelemetrySample)
    (s : LoopState) (dc : Nat) :
    (renderAndSleep env sample s dc false (PyVal.int 10)).errored = true ∨
    (renderAndSleep env sample s dc false (PyVal.int 10)).sleep =
      (if (renderAndSleep env sample s dc false (PyVal.int 10)).dispatchCount = 1 ∧
          (renderAndSleep env sample s dc false (PyVal.int 10)).alertOk = true
        then 30 else 10) := by
  unfold renderAndSleep
  cases h1 : env.historyOk <;> cases h2 : env.sinkOk <;>
    simp [handlerResult, normalResult, time_sleep]

/-- With the default numeric frequency, every cycle either errors or sleeps
exactly 30 seconds after a successful dispatch and exactly 10 otherwise. -/
lemma runCycle_sleep_char (env : CycleEnv) (s : LoopState)
    (hf : env.frequency = PyVal.int 10) :
    (runCycle env s).errored = true ∨
    (runCycle env s).sleep =
      (if (runCycle env s).dispatchCount = 1 ∧ (runCycle env s).alertOk = true
        then 30 else 10) := by
  unfold runCycle
  rw [hf]
  rcases s with ⟨la, ⟨bs, ct⟩⟩
  cases hl : env.latest with
  | storeError => exact Or.inl rfl
  | empty => right; rfl
  | rows sample =>
      cases bs with
      | none => exact Or.inl rfl
      | some soc =>
          by_cases h20 : soc < 20
          · cases ct with
            | none => left; simp [if_pos h20, handlerResult]
            | some ctime =>
                by_cases hel : ctime - la > 300
                · simp only [if_pos h20, if_pos hel]
                  cases hok : send_low_battery_alert env.dispatch with
                  | true => exact renderAndSleep_sleep_alert env sample _
                  | false => exact renderAndSleep_sleep_noalert env sample _ 1
                · simp only [if_pos h20, if_neg hel]
                  exact renderAndSleep_sleep_noalert env sample _ 0
          · simp only [if_neg h20]
            exact renderAndSleep_sleep_noalert env sample _ 0

/-- C1 (code evaluated at the failing input): on the first poll cycle the
latest sample has `battery_soc = 15` and the elapsed time since
`last_alert_time` far exceeds 5 minutes, so the claim requires a dispatch
attempt — but the cycle attempts none: the alert condition reads the
unassigned local `battery_soc` and the cycle ends in the error handler. -/
theorem claimed_alert_conditions_hold_yet_no_dispatch :
    sampleLow.battery_soc < 20 ∧
    envRowsLow.now - initialState.last_alert_time > 300 ∧
    (runCycle envRowsLow initialState).dispatchCount = 0 ∧
    (runCycle envRowsLow initialState).errored = true := by decide

/-- C2 (code evaluated at the failing input): the alert decision is not a
function of the sample fetched in the same cycle. With stale locals
`battery_soc = 10`, `current_time = 1000` left over from an earlier
evaluation, a cycle whose own latest sample has `battery_soc = 95` still
attempts a dispatch; and on the first cycle (no stale locals) the
evaluation errors out instead of using the fetched sample. -/
theorem alert_decision_ignores_current_sample :
    sampleHigh.battery_soc = 95 ∧
    (runCycle envRowsHigh stBound).dispatchCount = 1 ∧
    (runCycle envRowsHigh initialState).dispatchCount = 0 ∧
    (runCycle envRowsHigh initialState).errored = true := by decide

/-- C3 (code evaluated at the failing input): when the dispatcher returns
`True` in a cycle whose clock is at 2000, `last_alert_time` is set to the
value of the stale local `current_time` (1000), not to the dispatch time. -/
theorem last_alert_time_set_to_stale_time :
    (runCycle envNow2000 stBound).alertOk = true ∧
    (runCycle envNow2000 stBound).state.last_alert_time = 1000 ∧
    envNow2000.now = 2000 ∧
    (runCycle envNow2000 stBound).state.last_alert_time ≠ envNow2000.now := by
  decide

/-- C5: with the program's numeric frequency (the built-in default 10), a
cycle that does not end in the error handler sleeps exactly 30 seconds if
a dispatch was attempted and returned `True`, and exactly the default 10
seconds otherwise. -/
theorem sleep_30_iff_alert (env : CycleEnv) (s : LoopState)
    (hf : env.frequency = PyVal.int 10)
    (he : (runCycle env s).errored = false) :
    (runCycle env s).sleep =
      (if (runCycle env s).dispatchCount = 1 ∧ (runCycle env s).alertOk = true
        then 30 else 10) := by
  rcases runCycle_sleep_char env s hf with h | h
  · rw [he] at h
    simp at h
  · exact h

/-- C5 (witness): the sleep-interval law applied to a concrete non-errored
cycle (empty data, default frequency), which sleeps the default 10. -/
theorem sleep_30_iff_alert_witness :
    (runCycle envEmpty10 initialState).sleep =
      (if (runCycle envEmpty10 initialState).dispatchCount = 1 ∧
          (runCycle envEmpty10 initialState).alertOk = true
        then 30 else 10) :=
  sleep_30_iff_alert envEmpty10 initialState rfl rfl

/-- C7: every cycle that ends through the `except Exception` handler — no
matter where in the cycle the error arose — logs once, surfaces one
visible error, and sleeps the fixed fallback of 15 seconds before the
rerun; `runCycle` is total, so the loop always has a successor cycle and
never terminates on an error. -/
theorem uncaught_error_logs_shows_sleeps15 (env : CycleEnv) (s : LoopState)
    (he : (runCycle env s).errored = true) :
    (runCycle env s).sleep = 15 ∧ (runCycle env s).handlerLogged = true ∧
    (runCycle env s).handlerErrors = 1 :=
  runCycle_error15 env s he

/-- C7 (witness): the failure semantics applied to a concrete cycle in
which the latest-row query raises (store unavailable). -/
theorem uncaught_error_logs_shows_sleeps15_witness :
    (runCycle envStoreErr initialState).sleep = 15 ∧
    (runCycle envStoreErr initialState).handlerLogged = true ∧
    (runCycle envStoreErr initialState).handlerErrors = 1 :=
  uncaught_error_logs_shows_sleeps15 envStoreErr initialState rfl

/-- C8 (counterexample): a cycle in which `fetchLatest` fails does not
transition to Sleeping with the default interval (10), as the claim states
for the failure case: it ends in the error handler and sleeps 15. -/
theorem store_failure_sleeps_15_not_default :
    (runCycle envStoreErr initialState).errored = true ∧
    (runCycle envStoreErr initialState).sleep = 15 ∧
    envStoreErr.frequency = PyVal.int 10 ∧
    (runCycle envStoreErr initialState).sleep ≠ 10 := by decide

/-- C8 (amended): when `fetchLatest` returns an empty result and the
configured frequency is numeric, the cycle sleeps the default interval,
surfaces the no-data error indicator, renders no metrics and attempts no
dispatch; when `fetchLatest` fails, the cycle instead ends through the
error handler with the fixed 15-second sleep, likewise rendering no
metrics and attempting no dispatch. -/
theorem polling_empty_or_failed (env : CycleEnv) (s : LoopState) (n : Int) :
    (env.latest = FetchResult.empty ∧ env.frequency = PyVal.int n →
      (runCycle env s).sleep = n ∧ (runCycle env s).noDataError = true ∧
      (runCycle env s).metricsRendered = false ∧
      (runCycle env s).dispatchCount = 0 ∧ (runCycle env s).errored = false) ∧
    (env.latest = FetchResult.storeError →
      (runCycle env s).sleep = 15 ∧ (runCycle env s).errored = true ∧
      (runCycle env s).metricsRendered = false ∧
      (runCycle env s).dispatchCount = 0) := by
  constructor
  · rintro ⟨h1, h2⟩
    refine ⟨?_, ?_, ?_, ?_, ?_⟩ <;>
      simp [runCycle, h1, h2, time_sleep, normalResult]
  · intro h1
    refine ⟨?_, ?_, ?_, ?_⟩ <;> simp [runCycle, h1, handlerResult]

/-- C8 (witness): the amended polling behaviour at concrete inputs — an
empty result with the default frequency sleeps 10; a failed fetch sleeps
the 15-second fallback. -/
theorem polling_empty_or_failed_witness :
    (runCycle envEmpty10 initialState).sleep = 10 ∧
    (runCycle envStoreErr initialState).sleep = 15 :=
  ⟨((polling_empty_or_failed envEmpty10 initialState 10).1 ⟨rfl, rfl⟩).1,
   ((polling_empty_or_failed envStoreErr initialState 10).2 rfl).1⟩

/-- C9: when STREAMLIT_FREQUENCY is supplied through the environment,
`FREQUENCY` is a string, and every reachable cycle of the run — non-empty
data errors at the alert condition before reaching the sleep, and empty
data raises `TypeError` inside `time.sleep(FREQUENCY)` — ends through the
15-second error fallback path, so the environment-configured frequency is
never the actual sleep duration. -/
theorem env_frequency_string_every_cycle_errors (envs : Nat → CycleEnv)
    (v : String) (hf : ∀ k, (envs k).frequency = PyVal.str v) (n : Nat) :
    (runCycle (envs n) (reachState envs n)).errored = true ∧
    (runCycle (envs n) (reachState envs n)).sleep = 15 := by
  rw [reachState_eq_initial]
  cases hl : (envs n).latest with
  | storeError => constructor <;> simp [runCycle, hl, handlerResult]
  | empty =>
      have h3 : time_sleep (envs n).frequency = none := by rw [hf n]; rfl
      constructor <;> simp [runCycle, hl, h3, handlerResult]
  | rows sample =>
      constructor <;> simp [runCycle, hl, initialState, handlerResult]

/-- C9 (witness): the string-frequency behaviour at the first cycle of a
concrete run whose every cycle returns empty data under
STREAMLIT_FREQUENCY="10". -/
theorem env_frequency_string_every_cycle_errors_witness :
    (runCycle envEmptyStr (reachState (fun _ => envEmptyStr) 0)).errored = true ∧
    (runCycle envEmptyStr (reachState (fun _ => envEmptyStr) 0)).sleep = 15 :=
  env_frequency_string_every_cycle_errors (fun _ => envEmptyStr) "10"
    (fun _ => rfl) 0

/-- C10: in the first cycle of a run, whenever `fetchLatest` returns a
non-empty result, the alert condition reads the locals `battery_soc` and
`current_time` before any assignment to them, so the cycle ends through
the cycle-level error handler: no dispatch is attempted, no metrics are
rendered, and the cycle sleeps the 15-second fallback. -/
theorem first_cycle_unbound_locals (env : CycleEnv) (sample : TelemetrySample)
    (hl : env.latest = FetchResult.rows sample) :
    (runCycle env initialState).errored = true ∧
    (runCycle env initialState).handlerLogged = true ∧
    (runCycle env initialState).dispatchCount = 0 ∧
    (runCycle env initialState).metricsRendered = false ∧
    (runCycle env initialState).sleep = 15 := by
  refine ⟨?_, ?_, ?_, ?_, ?_⟩ <;>
    simp [runCycle, hl, initialState, handlerResult]

/-- C10 (witness): the first-cycle behaviour at a concrete environment
whose latest row is the low-battery sample. -/
theorem first_cycle_unbound_locals_witness :
    (runCycle envRowsLow initialState).errored = true ∧
    (runCycle envRowsLow initialState).handlerLogged = true ∧
    (runCycle envRowsLow initialState).dispatchCount = 0 ∧
    (runCycle envRowsLow initialState).metricsRendered = false ∧
    (runCycle envRowsLow initialState).sleep = 15 :=
  first_cycle_unbound_locals envRowsLow sampleLow rfl
